import Mathlib

/-!
Shallow embedding of the orchestration core of `src/app.py`:
the NAT-gateway pull lifecycle (`pull_model_task` and its helpers),
the task stopper (`stop_ecs_tasks`) and the readiness probe
(`selfhost_status`, `get_ecs_task_status`).

External API calls (boto3 EC2/ECS, httpx) are modelled by oracles that
supply each call's response; the route table is the only piece of cloud
state the code both reads and writes, so it is threaded explicitly as a
list of routes.  Every call the code issues is recorded in an event
trace so that claims about which calls a run performs can be stated.
-/

namespace AppModel

/-- Python truthiness of an optional string (`if nat_gateway_id:` in the
source): `None` and the empty string are falsy. -/
def strTruthy : Option String → Bool
  | none => false
  | some s => if s = "" then false else true

/-- The four target fields that `get_current_default_route` reads off the
default route (`NatGatewayId`, `GatewayId`, `InstanceId`,
`NetworkInterfaceId`); absent keys are `none`. -/
structure RouteSnapshot where
  natGatewayId : Option String
  gatewayId : Option String
  instanceId : Option String
  networkInterfaceId : Option String
  deriving DecidableEq, Repr

/-- A route of the managed route table: destination CIDR plus the target
fields the code inspects. -/
structure Route where
  destinationCidrBlock : Option String
  natGatewayId : Option String
  gatewayId : Option String
  instanceId : Option String
  networkInterfaceId : Option String
  deriving DecidableEq, Repr

/-- First route whose `DestinationCidrBlock` is `0.0.0.0/0`, as scanned by
`get_current_default_route` in `src/app.py`. -/
def findDefaultRoute : List Route → Option Route
  | [] => none
  | r :: rs =>
    if r.destinationCidrBlock = some "0.0.0.0/0" then some r
    else findDefaultRoute rs

/-- The snapshot dict `get_current_default_route` builds from a route. -/
def snapshotFields (r : Route) : RouteSnapshot :=
  ⟨r.natGatewayId, r.gatewayId, r.instanceId, r.networkInterfaceId⟩

/-- `get_current_default_route`: on API success, the target fields of the
first `0.0.0.0/0` route, else `None` (also `None` when the describe call
raises, or when no default route exists). -/
def get_current_default_route (ok : Bool) (routes : List Route) :
    Option RouteSnapshot :=
  if ok then (findDefaultRoute routes).map snapshotFields else none

/-- Overwrite a route's target fields with the given snapshot, keeping the
destination (effect of `replace_route` on that route). -/
def setTarget (r : Route) (t : RouteSnapshot) : Route :=
  ⟨r.destinationCidrBlock, t.natGatewayId, t.gatewayId, t.instanceId,
    t.networkInterfaceId⟩

/-- Effect of a successful `replace_route` for destination `0.0.0.0/0` on
the route table: the default route's target fields become `t`. -/
def setDefaultTarget : List Route → RouteSnapshot → List Route
  | [], _ => []
  | r :: rs, t =>
    (if r.destinationCidrBlock = some "0.0.0.0/0" then setTarget r t else r)
      :: setDefaultTarget rs t

/-- The all-absent snapshot (a kwargs dict carrying no target key). -/
def emptySnapshot : RouteSnapshot := ⟨none, none, none, none⟩

/-- The kwargs `restore_default_route` builds: the first truthy key among
`NatGatewayId`, `GatewayId`, `InstanceId`, `NetworkInterfaceId` of the
captured snapshot, and only that one (the loop breaks after one key). -/
def restoreKwargs (s : RouteSnapshot) : RouteSnapshot :=
  if strTruthy s.natGatewayId then ⟨s.natGatewayId, none, none, none⟩
  else if strTruthy s.gatewayId then ⟨none, s.gatewayId, none, none⟩
  else if strTruthy s.instanceId then ⟨none, none, s.instanceId, none⟩
  else if strTruthy s.networkInterfaceId then
    ⟨none, none, none, s.networkInterfaceId⟩
  else emptySnapshot

/-- `restore_default_route`: `replace_route` with the rebuilt kwargs.
With no target key the call raises and is caught (`False`, table
unchanged); otherwise `ok` decides API success. -/
def restore_default_route (ok : Bool) (routes : List Route)
    (s : RouteSnapshot) : Bool × List Route :=
  let kw := restoreKwargs s
  if kw = emptySnapshot then (false, routes)
  else if ok then (true, setDefaultTarget routes kw)
  else (false, routes)

/-- `attach_nat_gateway_to_route_table`: `replace_route` pointing the
default route at the NAT gateway; on failure the exception is caught and
`False` returned, table unchanged. -/
def attach_nat_gateway_to_route_table (ok : Bool) (routes : List Route)
    (natId : String) : Bool × List Route :=
  if ok then (true, setDefaultTarget routes ⟨some natId, none, none, none⟩)
  else (false, routes)

/-- External calls and waits a run performs, in order. -/
inductive Ev where
  | describeSubnetNat
  | describeRouteTable
  | createNat
  | pollNat (attempt : Nat)
  | sleep (units : Nat)
  | attach (natId : String)
  | pullPost (round : Nat) (result : Option Nat)
  | pullTags (round : Nat)
  | deleteNat (natId : String)
  | restoreRoute (s : RouteSnapshot)
  deriving DecidableEq, Repr

/-- Responses of the EC2 control plane for one run:
`existingNat` is what `check_nat_gateway_status` returns (an available
gateway of the configured subnet, or `None`); `createResult` is what
`create_nat_gateway` returns (`None` models its caught exception);
`pollAvailable i` is `is_nat_gateway_available` at poll attempt `i`
(`false` also covers its caught exception); the `Ok` flags decide the
describe-route-table, attach and restore calls. -/
structure EC2Oracle where
  existingNat : Option String
  createResult : Option String
  describeRouteOk : Bool
  pollAvailable : Nat → Bool
  attachOk : Bool
  restoreOk : Bool

/-- Responses of the Ollama HTTP API for one run: `post i` is the status
code of round `i`'s `POST /api/pull` (`none` models a raised exception);
`tags i` is round `i`'s `GET /api/tags` as (status code, model names),
`none` modelling an exception, and a list entry `none` a model dict
without a `name` key. -/
structure PullOracle where
  post : Nat → Option Nat
  tags : Nat → Option (Nat × List (Option String))

/-- Outcome of the pull loop (`break` on found vs the `for`-`else`). -/
inductive PullOutcome where
  | Success (round : Nat)
  | NotAvailableAfterRetries
  deriving DecidableEq, Repr

/-- The round's tags check: status code 200 and the requested name among
the reported models (`any(m.get("name") == model_name ...)`). -/
def tagsReportsModel (resp : Option (Nat × List (Option String)))
    (name : String) : Bool :=
  match resp with
  | none => false
  | some r => r.1 == 200 && r.2.any (fun m => m == some name)

/-- The pull loop from round `i` with `fuel` rounds left: each round posts
the pull trigger (result logged only — exceptions caught), sleeps 60,
then checks tags; found breaks with `Success`, exhaustion falls to the
`else` clause.  Returns (outcome, rounds executed, events). -/
def pullLoopFrom (po : PullOracle) (name : String) :
    Nat → Nat → PullOutcome × Nat × List Ev
  | _, 0 => (.NotAvailableAfterRetries, 0, [])
  | i, fuel + 1 =>
    let evs := [Ev.pullPost i (po.post i), Ev.sleep 60, Ev.pullTags i]
    if tagsReportsModel (po.tags i) name then (.Success i, 1, evs)
    else
      let r := pullLoopFrom po name (i + 1) fuel
      (r.1, r.2.1 + 1, evs ++ r.2.2)

/-- The `for attempt in range(10)` pull loop of `pull_model_task`. -/
def pullModelLoop (po : PullOracle) (name : String) :
    PullOutcome × Nat × List Ev :=
  pullLoopFrom po name 0 10

/-- The `for _ in range(40)` availability wait: check, `break` when
available, else sleep 15; exhaustion falls to the `else` clause.
Returns (became available, events). -/
def waitNatAvailable (poll : Nat → Bool) : Nat → Nat → Bool × List Ev
  | _, 0 => (false, [])
  | i, fuel + 1 =>
    if poll i then (true, [Ev.pollNat i])
    else
      let r := waitNatAvailable poll (i + 1) fuel
      (r.1, Ev.pollNat i :: Ev.sleep 15 :: r.2)

/-- The event trace of an availability wait in which every poll fails. -/
def pollSleeps : Nat → Nat → List Ev
  | _, 0 => []
  | i, fuel + 1 => Ev.pollNat i :: Ev.sleep 15 :: pollSleeps (i + 1) fuel

/-- Terminal state of one `pull_model_task` run. -/
inductive RunOutcome where
  | CreateFailed
  | ProvisioningTimeout
  | Completed (pull : PullOutcome)
  deriving DecidableEq, Repr

/-- What a run leaves behind: its terminal state, its call trace, and the
route table it leaves. -/
structure RunResult where
  outcome : RunOutcome
  events : List Ev
  routes : List Route
  deriving Repr

/-- Continuation of `pull_model_task` once a gateway id is in hand
(either reused or created and available): attach it (result ignored by
the source), settle 20, run the pull loop, then the cleanup block —
delete whenever the id is truthy, then restore when a snapshot was
captured. -/
def runWithGateway (o : EC2Oracle) (po : PullOracle) (name : String)
    (routes0 : List Route) (original : Option RouteSnapshot)
    (natId : String) (preEvs : List Ev) : RunResult :=
  let att := attach_nat_gateway_to_route_table o.attachOk routes0 natId
  let routes1 := att.2
  let p := pullModelLoop po name
  let evs1 := preEvs ++ [Ev.attach natId, Ev.sleep 20] ++ p.2.2
  if natId = "" then ⟨.Completed p.1, evs1, routes1⟩
  else
    match original with
    | none => ⟨.Completed p.1, evs1 ++ [Ev.deleteNat natId], routes1⟩
    | some s =>
      let r := restore_default_route o.restoreOk routes1 s
      ⟨.Completed p.1, evs1 ++ [Ev.deleteNat natId, Ev.restoreRoute s], r.2⟩

/-- The creation branch of `pull_model_task`: `create_nat_gateway`, abort
on a falsy id, else wait for availability (40 polls, 15 apart) and abort
on exhaustion; otherwise continue with the created gateway. -/
def runCreatePath (o : EC2Oracle) (po : PullOracle) (name : String)
    (routes0 : List Route) (original : Option RouteSnapshot)
    (preEvs : List Ev) : RunResult :=
  match o.createResult with
  | none => ⟨.CreateFailed, preEvs ++ [Ev.createNat], routes0⟩
  | some natId =>
    if natId = "" then ⟨.CreateFailed, preEvs ++ [Ev.createNat], routes0⟩
    else
      let w := waitNatAvailable o.pollAvailable 0 40
      if w.1 then
        runWithGateway o po name routes0 original natId
          (preEvs ++ [Ev.createNat] ++ w.2)
      else ⟨.ProvisioningTimeout, preEvs ++ [Ev.createNat] ++ w.2, routes0⟩

/-- `pull_model_task`: when the host is configured, discover or create a
NAT gateway, snapshot the default route before any mutation, attach,
pull, then clean up; with no host configuration, only the pull loop
runs. -/
def pull_model_task (hostSet : Bool) (o : EC2Oracle) (po : PullOracle)
    (name : String) (routes0 : List Route) : RunResult :=
  if hostSet then
    let original := get_current_default_route o.describeRouteOk routes0
    let evs0 := [Ev.describeSubnetNat, Ev.describeRouteTable]
    match o.existingNat with
    | some natId =>
      if natId = "" then runCreatePath o po name routes0 original evs0
      else runWithGateway o po name routes0 original natId evs0
    | none => runCreatePath o po name routes0 original evs0
  else
    let p := pullModelLoop po name
    ⟨.Completed p.1, p.2.2, routes0⟩

/-- One iteration per listed task: issue `stop_task`, record the task and
whether the call succeeded; a caught exception does not stop the loop. -/
def stopLoop (stopFails : String → Bool) : List String → List (String × Bool)
  | [] => []
  | t :: rest => (t, !stopFails t) :: stopLoop stopFails rest

/-- `stop_ecs_tasks`: on an empty listing log and return, else stop each
listed task in order, failures logged and skipped.  Returns the stop
calls issued with their success. -/
def stop_ecs_tasks (tasks : List String) (stopFails : String → Bool) :
    List (String × Bool) :=
  if tasks.isEmpty then [] else stopLoop stopFails tasks

/-- `get_ecs_task_status` applied to the describe-tasks response (the
`lastStatus` values of the returned tasks; `none` models a raised call):
`response['tasks'][0]['lastStatus']`, any exception (including the index
error on an empty list) caught and turned into `None`. -/
def get_ecs_task_status (resp : Option (List String)) : Option String :=
  match resp with
  | none => none
  | some [] => none
  | some (s :: _) => some s

/-- Response body of `/selfhost_status`. -/
inductive StatusResp where
  | noTasks
  | taskStatus (ready : Bool) (status : Option String) (taskArn : String)
  deriving DecidableEq, Repr

/-- `selfhost_status`: reject on missing configuration, report `NO_TASKS`
on an empty listing, else inspect the last-listed task's status and
report ready iff it is `RUNNING`. -/
def selfhost_status (configOk : Bool) (tasks : List String)
    (describeTasks : String → Option (List String)) :
    Except Nat StatusResp :=
  if configOk then
    match tasks.getLast? with
    | none => .ok .noTasks
    | some arn =>
      let status := get_ecs_task_status (describeTasks arn)
      .ok (.taskStatus (status == some "RUNNING") status arn)
  else .error 400

/-- Recognize gateway-attach calls in a trace. -/
def isAttachEv : Ev → Bool
  | .attach _ => true
  | _ => false

/-- Recognize gateway-delete calls in a trace. -/
def isDeleteEv : Ev → Bool
  | .deleteNat _ => true
  | _ => false

/-- Recognize gateway-create calls in a trace. -/
def isCreateEv : Ev → Bool
  | .createNat => true
  | _ => false

/-- Recognize pull-trigger posts in a trace. -/
def isPullPostEv : Ev → Bool
  | .pullPost _ _ => true
  | _ => false

/-- Recognize route-restore calls in a trace. -/
def isRestoreEv : Ev → Bool
  | .restoreRoute _ => true
  | _ => false

/-- Recognize availability polls in a trace. -/
def isPollEv : Ev → Bool
  | .pollNat _ => true
  | _ => false

/-- A field of a captured snapshot is absent or a nonempty identifier
(what a real describe-route-tables response yields). -/
def wfField : Option String → Bool
  | none => true
  | some s => if s = "" then false else true

/-- All four snapshot fields are wellformed. -/
def wfSnapshot (s : RouteSnapshot) : Bool :=
  wfField s.natGatewayId && wfField s.gatewayId && wfField s.instanceId
    && wfField s.networkInterfaceId

/-- Number of truthy target fields of a snapshot; the data model of a
route has exactly one. -/
def countTruthy (s : RouteSnapshot) : Nat :=
  (if strTruthy s.natGatewayId then 1 else 0)
    + (if strTruthy s.gatewayId then 1 else 0)
    + (if strTruthy s.instanceId then 1 else 0)
    + (if strTruthy s.networkInterfaceId then 1 else 0)

/-- A run's provisioning phase ends holding a gateway (and so reaches the
attach call) iff discovery was truthy, or creation was truthy and some
of the 40 availability polls succeeded. -/
def reachesAttach (o : EC2Oracle) : Bool :=
  strTruthy o.existingNat
    || (strTruthy o.createResult && (waitNatAvailable o.pollAvailable 0 40).1)

/-- The same EC2 oracle with the attach call's success replaced. -/
def setAttachOk (o : EC2Oracle) (b : Bool) : EC2Oracle :=
  ⟨o.existingNat, o.createResult, o.describeRouteOk, o.pollAvailable, b,
    o.restoreOk⟩

/-- A backend whose tags inventory never lists any model. -/
def poNever : PullOracle := ⟨fun _ => some 200, fun _ => some (200, [])⟩

/-- EC2 responses for a reuse-path run: an available gateway `nat-A`
already exists in the subnet, every call succeeds. -/
def oReuse : EC2Oracle := ⟨some "nat-A", none, true, fun _ => false, true, true⟩

/-- EC2 responses for a reuse-path run whose attach call fails. -/
def oAttachFail : EC2Oracle :=
  ⟨some "nat-A", none, true, fun _ => false, false, true⟩

/-- EC2 responses for a create-path run whose gateway never becomes
available. -/
def oTimeout : EC2Oracle :=
  ⟨none, some "nat-new", true, fun _ => false, true, true⟩

/-- A route table whose default route targets an internet gateway. -/
def routesIGW : List Route :=
  [⟨some "0.0.0.0/0", none, some "igw-1", none, none⟩]

/-- The snapshot captured off `routesIGW`. -/
def snapIGW : RouteSnapshot := ⟨none, some "igw-1", none, none⟩

/-- A backend that reports model `m` in its inventory from round 2 on. -/
def tagsRound2 : Nat → Option (Nat × List (Option String)) :=
  fun i => if i < 2 then some (200, []) else some (200, [some "m"])

/-- A pull trigger whose posts always raise. -/
def postRaise : Nat → Option Nat := fun _ => none

/-- A describe-tasks oracle whose single task is running. -/
def dRunning : String → Option (List String) := fun _ => some ["RUNNING"]

/-- A describe-tasks oracle whose calls always raise. -/
def dRaise : String → Option (List String) := fun _ => none

theorem findDefaultRoute_setDefaultTarget (routes : List Route)
    (t : RouteSnapshot) :
    findDefaultRoute (setDefaultTarget routes t)
      = (findDefaultRoute routes).map (fun r => setTarget r t) := by
  induction routes with
  | nil => rfl
  | cons r rs ih =>
    by_cases h : r.destinationCidrBlock = some "0.0.0.0/0"
    · simp [setDefaultTarget, findDefaultRoute, h, setTarget]
    · simp [setDefaultTarget, findDefaultRoute, h, ih]

theorem snapshotFields_setTarget (r : Route) (t : RouteSnapshot) :
    snapshotFields (setTarget r t) = t := rfl

theorem get_current_after_two_sets (routes : List Route) (r : Route)
    (t1 t2 : RouteSnapshot) (hr : findDefaultRoute routes = some r) :
    get_current_default_route true
        (setDefaultTarget (setDefaultTarget routes t1) t2) = some t2 := by
  simp [get_current_default_route, findDefaultRoute_setDefaultTarget, hr,
    snapshotFields_setTarget]

theorem wf_falsy_eq_none (x : Option String) (hw : wfField x = true)
    (ht : strTruthy x = false) : x = none := by
  cases x with
  | none => rfl
  | some s => by_cases hs : s = "" <;> simp [wfField, strTruthy, hs] at hw ht

theorem restoreKwargs_self (s : RouteSnapshot) (hwf : wfSnapshot s = true)
    (hone : countTruthy s = 1) : restoreKwargs s = s := by
  simp only [wfSnapshot, Bool.and_eq_true] at hwf
  obtain ⟨⟨⟨hwa, hwb⟩, hwc⟩, hwd⟩ := hwf
  have ea := wf_falsy_eq_none s.natGatewayId hwa
  have eb := wf_falsy_eq_none s.gatewayId hwb
  have ec := wf_falsy_eq_none s.instanceId hwc
  have ed := wf_falsy_eq_none s.networkInterfaceId hwd
  simp only [countTruthy] at hone
  simp only [restoreKwargs]
  obtain ⟨a, b, c, d⟩ := s
  simp only at ea eb ec ed hone ⊢
  cases ha : strTruthy a <;> cases hb : strTruthy b <;>
      cases hc : strTruthy c <;> cases hd : strTruthy d <;>
    simp only [ha, hb, hc, hd] at hone ⊢ <;>
    simp_all [ea, eb, ec, ed]

theorem countTruthy_ne_empty (s : RouteSnapshot) (hone : countTruthy s = 1) :
    ¬ s = emptySnapshot := by
  intro he
  rw [he] at hone
  simp [countTruthy, emptySnapshot, strTruthy] at hone

theorem pullLoopFrom_any_false (po : PullOracle) (name : String)
    (p : Ev → Bool) (hpost : ∀ i r, p (Ev.pullPost i r) = false)
    (hsleep : p (Ev.sleep 60) = false)
    (htags : ∀ i, p (Ev.pullTags i) = false) :
    ∀ fuel start, ((pullLoopFrom po name start fuel).2.2.any p) = false := by
  intro fuel
  induction fuel with
  | zero => intro start; rfl
  | succ f ih =>
    intro start
    by_cases h : tagsReportsModel (po.tags start) name = true
    · simp [pullLoopFrom, h, hpost, hsleep, htags]
    · simp [pullLoopFrom, h, hpost, hsleep, htags, ih (start + 1)]

theorem pullLoopFrom_post_irrel (post1 post2 : Nat → Option Nat)
    (tags : Nat → Option (Nat × List (Option String))) (name : String) :
    ∀ fuel start,
      (pullLoopFrom ⟨post1, tags⟩ name start fuel).1
          = (pullLoopFrom ⟨post2, tags⟩ name start fuel).1
        ∧ (pullLoopFrom ⟨post1, tags⟩ name start fuel).2.1
          = (pullLoopFrom ⟨post2, tags⟩ name start fuel).2.1 := by
  intro fuel
  induction fuel with
  | zero => exact fun _ => ⟨rfl, rfl⟩
  | succ f ih =>
    intro start
    by_cases h : tagsReportsModel (tags start) name = true <;>
      simp [pullLoopFrom, h, (ih (start + 1)).1, (ih (start + 1)).2]

theorem pullLoopFrom_rounds_le (po : PullOracle) (name : String) :
    ∀ fuel start, (pullLoopFrom po name start fuel).2.1 ≤ fuel := by
  intro fuel
  induction fuel with
  | zero => intro start; simp [pullLoopFrom]
  | succ f ih =>
    intro start
    by_cases h : tagsReportsModel (po.tags start) name = true
    · simp [pullLoopFrom, h]
    · have := ih (start + 1)
      simp only [pullLoopFrom, h, if_false]
      simp
      omega

theorem pullLoopFrom_none (po : PullOracle) (name : String) :
    ∀ fuel start,
      (∀ k, k < fuel → tagsReportsModel (po.tags (start + k)) name = false) →
      (pullLoopFrom po name start fuel).1 = .NotAvailableAfterRetries
        ∧ (pullLoopFrom po name start fuel).2.1 = fuel := by
  intro fuel
  induction fuel with
  | zero => intro start _; exact ⟨rfl, rfl⟩
  | succ f ih =>
    intro start h
    have h0 : tagsReportsModel (po.tags start) name = false := by
      have := h 0 (Nat.succ_pos f)
      simpa using this
    have hrest : ∀ k, k < f →
        tagsReportsModel (po.tags (start + 1 + k)) name = false := by
      intro k hk
      have := h (k + 1) (by omega)
      rwa [show start + (k + 1) = start + 1 + k by omega] at this
    have ihr := ih (start + 1) hrest
    simp [pullLoopFrom, h0, ihr.1, ihr.2]

theorem pullLoopFrom_first (po : PullOracle) (name : String) :
    ∀ fuel start j, j < fuel →
      tagsReportsModel (po.tags (start + j)) name = true →
      (∀ k, k < j → tagsReportsModel (po.tags (start + k)) name = false) →
      (pullLoopFrom po name start fuel).1 = .Success (start + j)
        ∧ (pullLoopFrom po name start fuel).2.1 = j + 1 := by
  intro fuel
  induction fuel with
  | zero => intro start j hj _ _; exact absurd hj (Nat.not_lt_zero j)
  | succ f ih =>
    intro start j hj hfound hmin
    cases j with
    | zero =>
      have h0 : tagsReportsModel (po.tags start) name = true := by
        simpa using hfound
      simp [pullLoopFrom, h0]
    | succ jj =>
      have h0 : tagsReportsModel (po.tags start) name = false := by
        have := hmin 0 (Nat.succ_pos jj)
        simpa using this
      have hfound2 :
          tagsReportsModel (po.tags (start + 1 + jj)) name = true := by
        rwa [show start + 1 + jj = start + (jj + 1) by omega]
      have hmin2 : ∀ k, k < jj →
          tagsReportsModel (po.tags (start + 1 + k)) name = false := by
        intro k hk
        have := hmin (k + 1) (by omega)
        rwa [show start + (k + 1) = start + 1 + k by omega] at this
      have ihr := ih (start + 1) jj (by omega) hfound2 hmin2
      rw [show start + (jj + 1) = start + 1 + jj by omega]
      constructor
      · simp [pullLoopFrom, h0, ihr.1]
      · simp [pullLoopFrom, h0, ihr.2]

theorem waitNat_any_false (poll : Nat → Bool) (p : Ev → Bool)
    (hpoll : ∀ i, p (Ev.pollNat i) = false)
    (hsleep : p (Ev.sleep 15) = false) :
    ∀ fuel i, ((waitNatAvailable poll i fuel).2.any p) = false := by
  intro fuel
  induction fuel with
  | zero => intro i; rfl
  | succ f ih =>
    intro i
    cases h : poll i <;>
      simp [waitNatAvailable, h, hpoll, hsleep, ih (i + 1)]

theorem waitNat_all_false (poll : Nat → Bool) :
    ∀ fuel i, (∀ j, i ≤ j → j < i + fuel → poll j = false) →
      waitNatAvailable poll i fuel = (false, pollSleeps i fuel) := by
  intro fuel
  induction fuel with
  | zero => intro i _; rfl
  | succ f ih =>
    intro i h
    have h0 : poll i = false := h i (Nat.le_refl i) (by omega)
    have hrest : ∀ j, i + 1 ≤ j → j < i + 1 + f → poll j = false := by
      intro j h1 h2
      exact h j (by omega) (by omega)
    simp [waitNatAvailable, pollSleeps, h0, ih (i + 1) hrest]

theorem waitNat_countP_le (poll : Nat → Bool) :
    ∀ fuel i, ((waitNatAvailable poll i fuel).2.countP isPollEv) ≤ fuel := by
  intro fuel
  induction fuel with
  | zero => intro i; simp [waitNatAvailable]
  | succ f ih =>
    intro i
    cases h : poll i
    · have := ih (i + 1)
      simp [waitNatAvailable, h, List.countP_cons, isPollEv]
      omega
    · simp [waitNatAvailable, h, List.countP_cons, isPollEv]

theorem rwg_any_attach (o : EC2Oracle) (po : PullOracle) (name : String)
    (routes0 : List Route) (original : Option RouteSnapshot) (natId : String)
    (preEvs : List Ev) :
    ((runWithGateway o po name routes0 original natId preEvs).events.any
      isAttachEv) = true := by
  unfold runWithGateway
  by_cases h : natId = ""
  · simp [h, isAttachEv, List.any_append]
  · cases original <;> simp [h, isAttachEv, List.any_append]

theorem rwg_any_delete (o : EC2Oracle) (po : PullOracle) (name : String)
    (routes0 : List Route) (original : Option RouteSnapshot) (natId : String)
    (preEvs : List Ev) (h : ¬ natId = "") :
    ((runWithGateway o po name routes0 original natId preEvs).events.any
      isDeleteEv) = true := by
  unfold runWithGateway
  cases original <;> simp [h, isDeleteEv, List.any_append]

theorem rwg_any_false (o : EC2Oracle) (po : PullOracle) (name : String)
    (routes0 : List Route) (original : Option RouteSnapshot) (natId : String)
    (preEvs : List Ev) (p : Ev → Bool)
    (hpre : preEvs.any p = false) (ha : p (Ev.attach natId) = false)
    (hs : p (Ev.sleep 20) = false)
    (hpull : ((pullModelLoop po name).2.2.any p) = false)
    (hd : p (Ev.deleteNat natId) = false)
    (hr : ∀ t, p (Ev.restoreRoute t) = false) :
    ((runWithGateway o po name routes0 original natId preEvs).events.any p)
      = false := by
  unfold runWithGateway
  by_cases h : natId = ""
  · subst h
    simp [List.any_append, hpre, ha, hs, hpull]
  · cases original <;> simp [h, List.any_append, hpre, ha, hs, hpull, hd, hr]

theorem rwg_routes (o : EC2Oracle) (po : PullOracle) (name : String)
    (routes0 : List Route) (s : RouteSnapshot) (natId : String)
    (preEvs : List Ev) (hat : o.attachOk = true) (hro : o.restoreOk = true)
    (hnat : ¬ natId = "") (hkw : restoreKwargs s = s)
    (hne : ¬ s = emptySnapshot) :
    (runWithGateway o po name routes0 (some s) natId preEvs).routes
      = setDefaultTarget
          (setDefaultTarget routes0 ⟨some natId, none, none, none⟩) s := by
  simp [runWithGateway, attach_nat_gateway_to_route_table,
    restore_default_route, hat, hro, hnat, hkw, hne]

theorem strTruthy_eq_true (x : Option String) (h : strTruthy x = true) :
    ∃ s, x = some s ∧ ¬ s = "" := by
  cases x with
  | none => simp [strTruthy] at h
  | some s =>
    refine ⟨s, rfl, ?_⟩
    intro hs
    rw [hs] at h
    simp [strTruthy] at h

theorem strTruthy_some_empty (x : String) (h : x = "") :
    strTruthy (some x) = false := by
  rw [h]
  rfl

theorem strTruthy_not_true (x : Option String)
    (h : ¬ strTruthy x = true) : strTruthy x = false := by
  cases hx : strTruthy x
  · rfl
  · exact absurd hx h

theorem pull_model_task_nohost (o : EC2Oracle) (po : PullOracle)
    (name : String) (routes0 : List Route) :
    pull_model_task false o po name routes0
      = ⟨.Completed (pullModelLoop po name).1, (pullModelLoop po name).2.2,
          routes0⟩ := rfl

theorem pull_model_task_reuse (o : EC2Oracle) (po : PullOracle)
    (name : String) (routes0 : List Route) (natId : String)
    (hx : o.existingNat = some natId) (hs : ¬ natId = "") :
    pull_model_task true o po name routes0
      = runWithGateway o po name routes0
          (get_current_default_route o.describeRouteOk routes0) natId
          [Ev.describeSubnetNat, Ev.describeRouteTable] := by
  simp [pull_model_task, hx, hs]

theorem pull_model_task_create (o : EC2Oracle) (po : PullOracle)
    (name : String) (routes0 : List Route)
    (hex : strTruthy o.existingNat = false) :
    pull_model_task true o po name routes0
      = runCreatePath o po name routes0
          (get_current_default_route o.describeRouteOk routes0)
          [Ev.describeSubnetNat, Ev.describeRouteTable] := by
  cases hx : o.existingNat with
  | none => simp [pull_model_task, hx]
  | some natId =>
    rw [hx] at hex
    have hs : natId = "" := by
      by_cases h : natId = ""
      · exact h
      · simp [strTruthy, h] at hex
    simp [pull_model_task, hx, hs]

theorem rwg_outcome (o : EC2Oracle) (po : PullOracle) (name : String)
    (routes0 : List Route) (original : Option RouteSnapshot) (natId : String)
    (preEvs : List Ev) :
    (runWithGateway o po name routes0 original natId preEvs).outcome
      = .Completed (pullModelLoop po name).1 := by
  unfold runWithGateway
  by_cases h : natId = ""
  · simp [h]
  · cases original <;> simp [h]

theorem rwg_events (o : EC2Oracle) (po : PullOracle) (name : String)
    (routes0 : List Route) (original : Option RouteSnapshot) (natId : String)
    (preEvs : List Ev) :
    (runWithGateway o po name routes0 original natId preEvs).events
      = (preEvs ++ [Ev.attach natId, Ev.sleep 20]
          ++ (pullModelLoop po name).2.2)
        ++ (if natId = "" then []
            else match original with
              | none => [Ev.deleteNat natId]
              | some s => [Ev.deleteNat natId, Ev.restoreRoute s]) := by
  unfold runWithGateway
  by_cases h : natId = ""
  · simp [h]
  · cases original <;> simp [h]

theorem rwg_roundtrip (o : EC2Oracle) (po : PullOracle) (name : String)
    (routes0 : List Route) (r : Route) (s : RouteSnapshot) (natId : String)
    (preEvs : List Ev) (hr : findDefaultRoute routes0 = some r)
    (hat : o.attachOk = true) (hres : o.restoreOk = true)
    (hs : ¬ natId = "") (hkw : restoreKwargs s = s)
    (hne : ¬ s = emptySnapshot) :
    get_current_default_route true
      (runWithGateway o po name routes0 (some s) natId preEvs).routes
      = some s := by
  rw [rwg_routes o po name routes0 s natId preEvs hat hres hs hkw hne]
  exact get_current_after_two_sets routes0 r _ s hr

/-- C6: the pull loop's outcome and round count are independent of the
pull-trigger posts (a failed or non-2xx pull trigger never aborts a
round); the loop runs at most 10 rounds; it stops with `Success` in the
first round whose tags inventory (status 200) reports the requested
name; and when no round's inventory reports the name it runs exactly 10
rounds and ends in `NotAvailableAfterRetries`. -/
theorem c6_pull_loop (post1 post2 : Nat → Option Nat)
    (tags : Nat → Option (Nat × List (Option String))) (name : String) :
    ((pullModelLoop ⟨post1, tags⟩ name).1 = (pullModelLoop ⟨post2, tags⟩ name).1
      ∧ (pullModelLoop ⟨post1, tags⟩ name).2.1
          = (pullModelLoop ⟨post2, tags⟩ name).2.1)
    ∧ (pullModelLoop ⟨post1, tags⟩ name).2.1 ≤ 10
    ∧ (∀ j, j < 10 → tagsReportsModel (tags j) name = true →
        (∀ k, k < j → tagsReportsModel (tags k) name = false) →
        (pullModelLoop ⟨post1, tags⟩ name).1 = .Success j
          ∧ (pullModelLoop ⟨post1, tags⟩ name).2.1 = j + 1)
    ∧ ((∀ j, j < 10 → tagsReportsModel (tags j) name = false) →
        (pullModelLoop ⟨post1, tags⟩ name).1 = .NotAvailableAfterRetries
          ∧ (pullModelLoop ⟨post1, tags⟩ name).2.1 = 10) := by
  refine ⟨pullLoopFrom_post_irrel post1 post2 tags name 10 0,
    pullLoopFrom_rounds_le _ name 10 0, ?_, ?_⟩
  · intro j hj hf hmin
    have h := pullLoopFrom_first ⟨post1, tags⟩ name 10 0 j hj
      (by simpa using hf) (fun k hk => by simpa using hmin k hk)
    simpa using h
  · intro hnone
    exact pullLoopFrom_none ⟨post1, tags⟩ name 10 0
      (fun k hk => by simpa using hnone k hk)

/-- C6 witness: with a backend whose inventory first reports model `m` in
round 2 (0-based), the loop stops there with `Success`. -/
theorem c6_witness :
    (pullModelLoop ⟨postRaise, tagsRound2⟩ "m").1 = .Success 2 :=
  ((c6_pull_loop postRaise postRaise tagsRound2 "m").2.2.1 2 (by omega)
    (by decide) (fun k hk => by revert k; decide)).1

/-- C8: when scaling to zero, every listed task of the service receives a
stop call, in listing order, whatever subset of the individual stop
calls fails (failures are caught per task and never prevent the
remaining stop calls). -/
theorem c8_stop_all_tasks (tasks : List String) (stopFails : String → Bool) :
    (stop_ecs_tasks tasks stopFails).map Prod.fst = tasks := by
  have hloop : ∀ l : List String,
      (stopLoop stopFails l).map Prod.fst = l := by
    intro l
    induction l with
    | nil => rfl
    | cons t rest ih => simp [stopLoop, ih]
  cases tasks with
  | nil => rfl
  | cons t rest => simpa [stop_ecs_tasks] using hloop (t :: rest)

/-- C9: with configuration present, an empty task listing yields the
distinct not-ready `NO_TASKS` response (a normal response, not an
error); a non-empty listing yields a response built solely from the
last-listed task: its reference, its looked-up status, and ready
exactly when that status is `RUNNING`. -/
theorem c9_status_report (d : String → Option (List String)) :
    selfhost_status true [] d = .ok .noTasks
    ∧ (∀ (tasks : List String) (arn : String), tasks.getLast? = some arn →
        selfhost_status true tasks d
          = .ok (.taskStatus (get_ecs_task_status (d arn) == some "RUNNING")
              (get_ecs_task_status (d arn)) arn)) := by
  constructor
  · rfl
  · intro tasks arn h
    simp [selfhost_status, h]

/-- C9 witness: two listed tasks, the last one `RUNNING`, reports ready. -/
theorem c9_witness :
    selfhost_status true ["t1", "t2"] dRunning
      = .ok (.taskStatus true (some "RUNNING") "t2") := by
  have h := (c9_status_report dRunning).2 ["t1", "t2"] "t2" (by decide)
  exact h.trans (by simp [dRunning, get_ecs_task_status])

/-- C10: when the listing is non-empty but the status lookup of the
last-listed task fails (the per-task lookup swallows its exception and
yields no status), the readiness operation still returns a normal
response: ready `false`, a null status, and the task reference. -/
theorem c10_status_failure_not_error (tasks : List String) (arn : String)
    (d : String → Option (List String)) (h1 : tasks.getLast? = some arn)
    (h2 : get_ecs_task_status (d arn) = none) :
    selfhost_status true tasks d = .ok (.taskStatus false none arn) := by
  have h : selfhost_status true tasks d
      = .ok (.taskStatus (get_ecs_task_status (d arn) == some "RUNNING")
          (get_ecs_task_status (d arn)) arn) := by
    simp [selfhost_status, h1]
  rw [h, h2]
  rfl

/-- C10 witness: one listed task whose describe call raises. -/
theorem c10_witness :
    selfhost_status true ["a"] dRaise = .ok (.taskStatus false none "a") :=
  c10_status_failure_not_error ["a"] "a" dRaise (by decide) rfl

/-- C1: the claim says a run that found a pre-existing available gateway
(reuse, nothing created) never issues a delete call for it; the code's
cleanup block guards only on the gateway id being truthy, so a
reuse-path run (here: gateway `nat-A` discovered, no create call ever
issued) does issue `delete_nat_gateway` for the discovered gateway. -/
theorem c1_reused_gateway_deleted :
    ((pull_model_task true oReuse poNever "m" routesIGW).events.any
        isCreateEv) = false
    ∧ Ev.deleteNat "nat-A"
        ∈ (pull_model_task true oReuse poNever "m" routesIGW).events := by
  constructor
  · decide
  · decide

/-- C7: whenever discovery finds an available NAT gateway in the subnet
(a truthy describe result), the run issues no create-gateway call,
whatever the route table, pull behaviour and remaining API outcomes. -/
theorem c7_reuse_no_create (o : EC2Oracle) (po : PullOracle) (name : String)
    (routes0 : List Route) (h : strTruthy o.existingNat = true) :
    ((pull_model_task true o po name routes0).events.any isCreateEv)
      = false := by
  obtain ⟨natId, hx, hs⟩ := strTruthy_eq_true o.existingNat h
  rw [pull_model_task_reuse o po name routes0 natId hx hs]
  exact rwg_any_false o po name routes0 _ natId _ isCreateEv rfl rfl rfl
    (pullLoopFrom_any_false po name isCreateEv (fun _ _ => rfl) rfl
      (fun _ => rfl) 10 0)
    rfl (fun _ => rfl)

/-- C7 witness: the concrete reuse-path run issues no create call. -/
theorem c7_witness :
    ((pull_model_task true oReuse poNever "pulled-model" []).events.any
      isCreateEv) = false :=
  c7_reuse_no_create oReuse poNever "pulled-model" [] rfl

/-- C3: in every run, the cleanup step (the gateway delete call, with the
route restore it carries) executes exactly when provisioning executed
and reached the gateway-attach step, regardless of the pull's outcome
and of whether the host/egress configuration was present at all. -/
theorem c3_teardown_iff_attach (hostSet : Bool) (o : EC2Oracle)
    (po : PullOracle) (name : String) (routes0 : List Route) :
    ((pull_model_task hostSet o po name routes0).events.any isAttachEv)
      = ((pull_model_task hostSet o po name routes0).events.any
          isDeleteEv) := by
  have hpullA := pullLoopFrom_any_false po name isAttachEv (fun _ _ => rfl)
    rfl (fun _ => rfl) 10 0
  have hpullD := pullLoopFrom_any_false po name isDeleteEv (fun _ _ => rfl)
    rfl (fun _ => rfl) 10 0
  have hwaitA := waitNat_any_false o.pollAvailable isAttachEv (fun _ => rfl)
    rfl 40 0
  have hwaitD := waitNat_any_false o.pollAvailable isDeleteEv (fun _ => rfl)
    rfl 40 0
  cases hostSet with
  | false =>
    rw [pull_model_task_nohost o po name routes0]
    rw [show ((⟨.Completed (pullModelLoop po name).1,
        (pullModelLoop po name).2.2, routes0⟩ : RunResult).events)
      = (pullModelLoop po name).2.2 from rfl]
    simp only [pullModelLoop]
    rw [hpullA, hpullD]
  | true =>
    by_cases hex : strTruthy o.existingNat = true
    · obtain ⟨natId, hx, hs⟩ := strTruthy_eq_true o.existingNat hex
      rw [pull_model_task_reuse o po name routes0 natId hx hs]
      rw [rwg_any_attach, rwg_any_delete o po name routes0 _ natId _ hs]
    · rw [pull_model_task_create o po name routes0
        (strTruthy_not_true o.existingNat hex)]
      cases hcr : o.createResult with
      | none => simp [runCreatePath, hcr, isAttachEv, isDeleteEv]
      | some cid =>
        by_cases hcs : cid = ""
        · simp [runCreatePath, hcr, hcs, isAttachEv, isDeleteEv]
        · cases hw : (waitNatAvailable o.pollAvailable 0 40).1
          · simp only [runCreatePath, hcr, hw, if_neg hcs,
              Bool.false_eq_true, if_false]
            simp [List.any_append, isAttachEv, isDeleteEv, hwaitA, hwaitD]
          · simp only [runCreatePath, hcr, hw, if_neg hcs, if_true]
            rw [rwg_any_attach, rwg_any_delete o po name routes0 _ cid _ hcs]

/-- C4 counterexample: the claim says a run whose attach call fails does
not proceed to the artifact pull; in this concrete run the attach call
fails (`attachOk = false`, the route table is left unchanged) and the
run nevertheless issues the round-0 pull trigger. -/
theorem c4_counterexample :
    oAttachFail.attachOk = false
    ∧ Ev.pullPost 0 (some 200)
        ∈ (pull_model_task true oAttachFail poNever "m" routesIGW).events
    ∧ (pull_model_task true oAttachFail poNever "m" routesIGW).routes
        = routesIGW := by
  refine ⟨rfl, ?_, ?_⟩
  · decide
  · decide

/-- C4 amended: an attach failure is not treated as fatal — the source
discards the attach call's result, so the run's outcome and its entire
call sequence (pull rounds included, then the delete-and-restore
cleanup) are the same whether the attach call succeeds or fails; only
the resulting route-table state differs. -/
theorem c4_attach_failure_ignored (o : EC2Oracle) (b : Bool)
    (po : PullOracle) (name : String) (routes0 : List Route) :
    (pull_model_task true (setAttachOk o b) po name routes0).outcome
        = (pull_model_task true o po name routes0).outcome
    ∧ (pull_model_task true (setAttachOk o b) po name routes0).events
        = (pull_model_task true o po name routes0).events := by
  by_cases hex : strTruthy o.existingNat = true
  · obtain ⟨natId, hx, hs⟩ := strTruthy_eq_true o.existingNat hex
    have hx2 : (setAttachOk o b).existingNat = some natId := hx
    rw [pull_model_task_reuse o po name routes0 natId hx hs,
      pull_model_task_reuse (setAttachOk o b) po name routes0 natId hx2 hs]
    constructor
    · rw [rwg_outcome, rwg_outcome]
    · rw [rwg_events, rwg_events]
      rfl
  · have hex2 : strTruthy o.existingNat = false :=
      strTruthy_not_true o.existingNat hex
    have hex3 : strTruthy (setAttachOk o b).existingNat = false := hex2
    rw [pull_model_task_create o po name routes0 hex2,
      pull_model_task_create (setAttachOk o b) po name routes0 hex3]
    cases hcr : o.createResult with
    | none =>
      have hcr2 : (setAttachOk o b).createResult = none := hcr
      rw [show (setAttachOk o b).describeRouteOk = o.describeRouteOk from rfl]
      simp [runCreatePath, hcr, hcr2]
    | some cid =>
      have hcr2 : (setAttachOk o b).createResult = some cid := hcr
      rw [show (setAttachOk o b).describeRouteOk = o.describeRouteOk from rfl]
      by_cases hcs : cid = ""
      · simp [runCreatePath, hcr, hcr2, hcs]
      · cases hw : (waitNatAvailable o.pollAvailable 0 40).1
        · simp only [runCreatePath, hcr, hcr2, if_neg hcs]
          rw [show (setAttachOk o b).pollAvailable = o.pollAvailable from rfl]
          rw [hw]
          simp
        · simp only [runCreatePath, hcr, hcr2, if_neg hcs]
          rw [show (setAttachOk o b).pollAvailable = o.pollAvailable from rfl]
          rw [hw]
          simp only [if_true]
          constructor
          · rw [rwg_outcome, rwg_outcome]
          · rw [rwg_events, rwg_events]

theorem pollSleeps_any_false (p : Ev → Bool)
    (hpoll : ∀ i, p (Ev.pollNat i) = false)
    (hsleep : p (Ev.sleep 15) = false) :
    ∀ fuel i, ((pollSleeps i fuel).any p) = false := by
  intro fuel
  induction fuel with
  | zero => intro i; rfl
  | succ f ih => intro i; simp [pollSleeps, hpoll, hsleep, ih (i + 1)]

/-- C5: a create-path run (no truthy discovery, a truthy create result)
all of whose 40 availability polls fail aborts with a provisioning
timeout: its trace is exactly the two describes, the create call and 40
polls separated by 15-unit sleeps — no delete, no attach, no pull
trigger, no restore — the route table is untouched, and (for any poll
oracle) the availability wait never issues more than 40 polls. -/
theorem c5_timeout_no_action (o : EC2Oracle) (po : PullOracle)
    (name : String) (routes0 : List Route)
    (hex : strTruthy o.existingNat = false)
    (hcr : strTruthy o.createResult = true)
    (hpoll : ∀ j, j < 40 → o.pollAvailable j = false) :
    (pull_model_task true o po name routes0).outcome = .ProvisioningTimeout
    ∧ (pull_model_task true o po name routes0).events
        = [Ev.describeSubnetNat, Ev.describeRouteTable, Ev.createNat]
            ++ pollSleeps 0 40
    ∧ ((pull_model_task true o po name routes0).events.any isDeleteEv = false
        ∧ (pull_model_task true o po name routes0).events.any isAttachEv
            = false
        ∧ (pull_model_task true o po name routes0).events.any isPullPostEv
            = false
        ∧ (pull_model_task true o po name routes0).events.any isRestoreEv
            = false)
    ∧ (pull_model_task true o po name routes0).routes = routes0
    ∧ (∀ p : Nat → Bool,
        ((waitNatAvailable p 0 40).2.countP isPollEv) ≤ 40) := by
  obtain ⟨cid, hcid, hc⟩ := strTruthy_eq_true o.createResult hcr
  have hwait := waitNat_all_false o.pollAvailable 40 0
    (fun j _ h2 => hpoll j (by omega))
  have hmain : pull_model_task true o po name routes0
      = ⟨.ProvisioningTimeout,
          [Ev.describeSubnetNat, Ev.describeRouteTable] ++ [Ev.createNat]
            ++ pollSleeps 0 40, routes0⟩ := by
    rw [pull_model_task_create o po name routes0 hex]
    simp [runCreatePath, hcid, hc, hwait]
  refine ⟨?_, ?_, ?_, ?_, fun p => waitNat_countP_le p 40 0⟩
  · rw [hmain]
  · rw [hmain]
    simp
  · have h1 := pollSleeps_any_false isDeleteEv (fun _ => rfl) rfl 40 0
    have h2 := pollSleeps_any_false isAttachEv (fun _ => rfl) rfl 40 0
    have h3 := pollSleeps_any_false isPullPostEv (fun _ => rfl) rfl 40 0
    have h4 := pollSleeps_any_false isRestoreEv (fun _ => rfl) rfl 40 0
    rw [hmain]
    refine ⟨?_, ?_, ?_, ?_⟩ <;>
      simp [List.any_append, isDeleteEv, isAttachEv, isPullPostEv,
        isRestoreEv, h1, h2, h3, h4]
  · rw [hmain]

/-- C5 witness: the concrete create-path run whose polls all fail ends in
a provisioning timeout. -/
theorem c5_witness :
    (pull_model_task true oTimeout poNever "m" []).outcome
      = .ProvisioningTimeout :=
  (c5_timeout_no_action oTimeout poNever "m" [] rfl rfl
    (fun _ _ => rfl)).1

/-- C2: in every run that reaches the attach step (reuse or create), with
the snapshot captured before any mutation (a wellformed snapshot with
exactly one populated target, as a real default route has) and with the
attach and restore API calls succeeding, the capture-mutate-restore
composite leaves the route table's default-route target equal to the
captured original. -/
theorem c2_route_roundtrip (o : EC2Oracle) (po : PullOracle) (name : String)
    (routes0 : List Route) (s : RouteSnapshot)
    (hcap : get_current_default_route o.describeRouteOk routes0 = some s)
    (hwf : wfSnapshot s = true) (hone : countTruthy s = 1)
    (hreach : reachesAttach o = true)
    (hat : o.attachOk = true) (hres : o.restoreOk = true) :
    get_current_default_route true
      (pull_model_task true o po name routes0).routes = some s := by
  have hdo : o.describeRouteOk = true := by
    cases hd : o.describeRouteOk
    · rw [hd] at hcap
      simp [get_current_default_route] at hcap
    · rfl
  rw [hdo] at hcap
  obtain ⟨r, hr⟩ : ∃ r, findDefaultRoute routes0 = some r := by
    cases hf : findDefaultRoute routes0 with
    | none => simp [get_current_default_route, hf] at hcap
    | some r => exact ⟨r, rfl⟩
  have hkw := restoreKwargs_self s hwf hone
  have hne := countTruthy_ne_empty s hone
  by_cases hex : strTruthy o.existingNat = true
  · obtain ⟨natId, hx, hs⟩ := strTruthy_eq_true o.existingNat hex
    rw [pull_model_task_reuse o po name routes0 natId hx hs]
    rw [hdo, hcap]
    exact rwg_roundtrip o po name routes0 r s natId _ hr hat hres hs hkw hne
  · have hex2 := strTruthy_not_true o.existingNat hex
    have hreach2 : strTruthy o.createResult = true
        ∧ (waitNatAvailable o.pollAvailable 0 40).1 = true := by
      simp only [reachesAttach, hex2, Bool.false_or, Bool.and_eq_true]
        at hreach
      exact hreach
    obtain ⟨hcr, hw⟩ := hreach2
    obtain ⟨cid, hcid, hcs⟩ := strTruthy_eq_true o.createResult hcr
    rw [pull_model_task_create o po name routes0 hex2]
    simp only [runCreatePath, hcid]
    rw [if_neg hcs, if_pos hw]
    rw [hdo, hcap]
    exact rwg_roundtrip o po name routes0 r s cid _ hr hat hres hcs hkw hne

/-- C2 witness: the concrete reuse-path run on a route table whose
default route targets internet gateway `igw-1` ends with the default
route targeting `igw-1` again. -/
theorem c2_witness :
    get_current_default_route true
      (pull_model_task true oReuse poNever "m" routesIGW).routes
      = some snapIGW :=
  c2_route_roundtrip oReuse poNever "m" routesIGW snapIGW (by decide)
    (by decide) (by decide) (by decide) rfl rfl

end AppModel
